import Mathlib

/-!
Verification of the build-and-fix orchestration pipeline (build-and-fix.py).

The development shallowly embeds the script's components:
* `run_command` — the Command Runner (subprocess wrapper with timeout / exception capture);
* `check_system_requirements` — the Environment Prober (node / npm version gate);
* `fix_typescript_config` / `patchDoc` — the Configuration Patcher over parsed JSON documents;
* `install_dependencies`, `build_frontend`, `test_backend` — the pipeline stages;
* `generate_report` — the Status Reporter;
* `main` — the Stage Pipeline Controller gluing the stages together.

External effects are made explicit: an `Env` record is the oracle describing how each
external command behaves when launched, and an `FS` record is the file-system state the
script reads and mutates.  Each stage returns its boolean result, the updated file
system, and the list of external commands it launched (its trace).
-/

namespace AQI

/-- Parsed JSON values, as produced by `json.load`.  Objects are association lists in
insertion order, mirroring Python dict ordering; `json.load` never produces duplicate
keys. -/
inductive JVal where
  | null : JVal
  | b : Bool → JVal
  | n : Int → JVal
  | s : String → JVal
  | arr : List JVal → JVal
  | obj : List (String × JVal) → JVal

/-- First-match lookup in an association list (Python `dict[k]` / `dict.get`). -/
def lookupKey : List (String × JVal) → String → Option JVal
  | [], _ => none
  | (k0, v0) :: rest, k => if k0 = k then some v0 else lookupKey rest k

/-- Python dict assignment semantics: replace the value at an existing key in place,
otherwise append the new binding at the end. -/
def setKey : List (String × JVal) → String → JVal → List (String × JVal)
  | [], k, v => [(k, v)]
  | (k0, v0) :: rest, k, v =>
      if k0 = k then (k0, v) :: rest else (k0, v0) :: setKey rest k v

/-- The fixed override set passed to `compiler_options.update({...})` in
`fix_typescript_config`, in the order of the Python dict literal. -/
def overrides : List (String × JVal) :=
  [("jsx", JVal.s "react-jsx"),
   ("moduleResolution", JVal.s "node"),
   ("allowSyntheticDefaultImports", JVal.b true),
   ("esModuleInterop", JVal.b true),
   ("skipLibCheck", JVal.b true),
   ("strict", JVal.b false),
   ("noImplicitAny", JVal.b false),
   ("strictNullChecks", JVal.b false)]

/-- The keys of the override set. -/
def overrideKeys : List String :=
  ["jsx", "moduleResolution", "allowSyntheticDefaultImports", "esModuleInterop",
   "skipLibCheck", "strict", "noImplicitAny", "strictNullChecks"]

/-- Python `compiler_options.update(overrides)`: fold the override bindings into the
sub-map with dict-assignment semantics. -/
def updateAll (l : List (String × JVal)) : List (String × JVal) :=
  overrides.foldl (fun acc kv => setKey acc kv.1 kv.2) l

/-- The read-modify part of `fix_typescript_config` on a parsed document.  Returns
`none` when the Python code would raise inside the `try` block before writing:
`tsconfig.get(...)` raises when the top level is not a dict, and
`compiler_options.update(...)` raises when the `compilerOptions` member is present but
is not a dict.  Otherwise returns the merged document that is persisted. -/
def patchDoc : JVal → Option JVal
  | JVal.obj entries =>
      match lookupKey entries "compilerOptions" with
      | some (JVal.obj co) =>
          some (JVal.obj (setKey entries "compilerOptions" (JVal.obj (updateAll co))))
      | some _ => none
      | none =>
          some (JVal.obj (setKey entries "compilerOptions" (JVal.obj (updateAll []))))
  | _ => none

/-- Observation: look a key up at the top level of the patched document. -/
def patchTop (d : JVal) (k : String) : Option JVal :=
  match patchDoc d with
  | some (JVal.obj e) => lookupKey e k
  | _ => none

/-- Observation: look a key up inside `compilerOptions` of the patched document. -/
def patchCO (d : JVal) (k : String) : Option JVal :=
  match patchTop d "compilerOptions" with
  | some (JVal.obj co) => lookupKey co k
  | _ => none

/-- Observation: look a key up inside `compilerOptions` of the original document. -/
def origCO (entries : List (String × JVal)) (k : String) : Option JVal :=
  match lookupKey entries "compilerOptions" with
  | some (JVal.obj co) => lookupKey co k
  | _ => none

/-- Shape condition under which the patcher's `try` block does not raise: the
`compilerOptions` member is absent or is itself an object. -/
def coShapeOk (entries : List (String × JVal)) : Bool :=
  match lookupKey entries "compilerOptions" with
  | none => true
  | some (JVal.obj _) => true
  | some _ => false

/-- Result of a completed subprocess (`subprocess.run` return value): exit status and
captured output streams.  When output is streamed rather than captured the text fields
are simply unused by the script. -/
structure Proc where
  returncode : Int
  stdout : String
  stderr : String

/-- How an external command behaves when launched: it completes (with any exit code),
it exceeds the 300-second bound (`subprocess.TimeoutExpired`), or launching it raises
some other exception carrying an error message. -/
inductive CmdBehavior where
  | completes : Proc → CmdBehavior
  | timesOut : CmdBehavior
  | raises : String → CmdBehavior

/-- The wall-clock bound (seconds) passed to every `subprocess.run` call. -/
def commandTimeout : Nat := 300

/-- Command Runner `run_command`: returns the completed-process record on normal
completion (including nonzero exit); both the `TimeoutExpired` handler and the
catch-all `except Exception` handler print a message and return `None`. -/
def run_command : CmdBehavior → Option Proc
  | CmdBehavior.completes r => some r
  | CmdBehavior.timesOut => none
  | CmdBehavior.raises _ => none

/-- Truthiness test `result and result.returncode == 0` used by every caller. -/
def cmdOk : Option Proc → Bool
  | some r => r.returncode == 0
  | none => false

/-- Characters removed by Python `str.strip()` (model: Unicode whitespace coincides
with `Char.isWhitespace` for the outputs at hand). -/
def trimChars (cs : List Char) : List Char :=
  ((cs.dropWhile Char.isWhitespace).reverse.dropWhile Char.isWhitespace).reverse

/-- Python `str.strip()`. -/
def pyStrip (s : String) : String :=
  String.mk (trimChars s.data)

/-- Accumulator form of decimal digit parsing. -/
def digitsToNat : List Char → Nat → Nat
  | [], acc => acc
  | c :: cs, acc => digitsToNat cs (acc * 10 + (c.toNat - '0'.toNat))

/-- Python `int(s)`: strip whitespace, optional sign, then a nonempty digit run;
anything else raises `ValueError`, modelled as `none`. -/
def pyInt (cs : List Char) : Option Int :=
  match trimChars cs with
  | [] => none
  | c :: rest =>
      let signed : Bool × List Char :=
        if c = '-' then (true, rest)
        else if c = '+' then (false, rest)
        else (false, c :: rest)
      match signed with
      | (neg, ds) =>
          if ds.isEmpty then none
          else if ds.all Char.isDigit then
            some (if neg then -(Int.ofNat (digitsToNat ds 0)) else Int.ofNat (digitsToNat ds 0))
          else none

/-- Version parsing in `check_system_requirements`:
`int(node_version.lstrip('v').split('.')[0])` applied to `result.stdout.strip()`.
`none` means the `int` call raises `ValueError`. -/
def parseMajor (s : String) : Option Int :=
  pyInt (((trimChars s.data).dropWhile (fun c => c = 'v')).takeWhile (fun c => c ≠ '.'))

/-- The contents of a directory tree, as copied wholesale by `shutil.copytree`. -/
abbrev DirTree := List (String × String)

/-- External-command oracle: how each command the script may launch behaves on this
run, plus the state `frontend/dist` is left in after each of the two possible
`npm run build` invocations. -/
structure Env where
  nodeVersionCmd : CmdBehavior
  npmVersionCmd : CmdBehavior
  backendInstallCmd : CmdBehavior
  frontendInstallCmd : CmdBehavior
  typeCheckCmd : CmdBehavior
  buildCmd1 : CmdBehavior
  distAfterBuild1 : Option DirTree
  typesInstallCmd : CmdBehavior
  buildCmd2 : CmdBehavior
  distAfterBuild2 : Option DirTree
  reportNodeCmd : CmdBehavior
  reportNpmCmd : CmdBehavior

/-- Data recorded in `build-report.txt` (the rendered text is a pure function of these
fields plus the timestamp, which the model leaves out). -/
structure ReportData where
  nodeVersionShown : String
  npmVersionShown : String
  backendDeps : Bool
  frontendDeps : Bool
  frontendBuilt : Bool
  publicDeployed : Bool
  envPresent : Bool
  ready : Bool

/-- File-system state visible to the script, rooted at the script's directory.
`none` for an `Option` field means the path does not exist. -/
structure FS where
  frontendDir : Bool
  tsconfig : Option JVal
  nodeModules : Bool
  frontendNodeModules : Bool
  dist : Option DirTree
  publicDir : Option DirTree
  envFile : Option String
  envExample : Option String
  reportFile : Option ReportData

/-- External commands the script can launch, for recording traces. -/
inductive CmdKind where
  | nodeVersion
  | npmVersion
  | npmInstallBackend
  | npmInstallFrontend
  | typeCheck
  | npmBuild
  | npmInstallTypesNode
  deriving DecidableEq, Repr

/-- Observable actions of a run: the initial working-directory change plus every
launched command. -/
inductive Action where
  | chdir
  | cmd : CmdKind → Action
  deriving DecidableEq, Repr

/-- True exactly for the working-directory change. -/
def isChdir : Action → Bool
  | Action.chdir => true
  | Action.cmd _ => false

/-- True for dependency-installation and build commands. -/
def isInstallOrBuild : Action → Bool
  | Action.cmd CmdKind.npmInstallBackend => true
  | Action.cmd CmdKind.npmInstallFrontend => true
  | Action.cmd CmdKind.npmBuild => true
  | Action.cmd CmdKind.npmInstallTypesNode => true
  | _ => false

/-- Environment Prober `check_system_requirements`.  `Except.error ()` models the
uncaught `ValueError` raised by `int(...)` when `node --version` exits 0 but its
stripped output's leading dot-separated token is not an integer; otherwise the
function returns its boolean verdict.  The second component is the list of commands
launched. -/
def check_system_requirements (env : Env) : Except Unit Bool × List CmdKind :=
  match run_command env.nodeVersionCmd with
  | some r =>
      if r.returncode = 0 then
        match parseMajor r.stdout with
        | some major =>
            if 16 ≤ major then
              match run_command env.npmVersionCmd with
              | some r2 =>
                  if r2.returncode = 0 then
                    (Except.ok true, [CmdKind.nodeVersion, CmdKind.npmVersion])
                  else (Except.ok false, [CmdKind.nodeVersion, CmdKind.npmVersion])
              | none => (Except.ok false, [CmdKind.nodeVersion, CmdKind.npmVersion])
            else (Except.ok false, [CmdKind.nodeVersion])
        | none => (Except.error (), [CmdKind.nodeVersion])
      else (Except.ok false, [CmdKind.nodeVersion])
  | none => (Except.ok false, [CmdKind.nodeVersion])

/-- Install stage `install_dependencies`: backend `npm install`, then frontend
`npm install` when the `frontend` directory exists (its absence is only a warning). -/
def install_dependencies (skip : Bool) (env : Env) (fs : FS) : Bool × List CmdKind :=
  if skip then (true, [])
  else
    if cmdOk (run_command env.backendInstallCmd) then
      if fs.frontendDir then
        if cmdOk (run_command env.frontendInstallCmd) then
          (true, [CmdKind.npmInstallBackend, CmdKind.npmInstallFrontend])
        else (false, [CmdKind.npmInstallBackend, CmdKind.npmInstallFrontend])
      else (true, [CmdKind.npmInstallBackend])
    else (false, [CmdKind.npmInstallBackend])

/-- Configuration Patcher stage `fix_typescript_config`: no-op success when the file is
absent; on a parse/update error (modelled by `patchDoc` returning `none`) the `except`
handler reports failure with the file unchanged; otherwise the merged document is
persisted. -/
def fix_typescript_config (fs : FS) : Bool × FS :=
  match fs.tsconfig with
  | none => (true, fs)
  | some d =>
      match patchDoc d with
      | some d2 => (true, { fs with tsconfig := some d2 })
      | none => (false, fs)

/-- Inventory stage `fix_react_components`: counts existing component files and always
succeeds. -/
def fix_react_components (_fs : FS) : Bool :=
  true

/-- Build stage `build_frontend`.  Runs the type check (outcome only printed), then
`npm run build`.  On first-attempt success: if `frontend/dist` exists, remove `public`
and copy `dist` to `public`; otherwise fail.  On first-attempt failure: install
`@types/node` and retry the build once, returning the retry's success without any
deployment step.  After each build invocation `frontend/dist` is whatever state that
invocation left it in.  The `shutil.rmtree` and `shutil.copytree` calls of the
deployment step sit outside any `try` block and can raise in the source;
`build_frontend_exc` models those uncaught failure paths, and this definition is its
fault-free projection (`build_frontend_exc_noFaults`). -/
def build_frontend (env : Env) (fs : FS) : Bool × FS × List CmdKind :=
  if fs.frontendDir then
    let afterBuild1 : FS := { fs with dist := env.distAfterBuild1 }
    if cmdOk (run_command env.buildCmd1) then
      match env.distAfterBuild1 with
      | some d =>
          (true, { afterBuild1 with publicDir := some d },
           [CmdKind.typeCheck, CmdKind.npmBuild])
      | none => (false, afterBuild1, [CmdKind.typeCheck, CmdKind.npmBuild])
    else
      let afterBuild2 : FS := { afterBuild1 with dist := env.distAfterBuild2 }
      if cmdOk (run_command env.buildCmd2) then
        (true, afterBuild2,
         [CmdKind.typeCheck, CmdKind.npmBuild, CmdKind.npmInstallTypesNode, CmdKind.npmBuild])
      else
        (false, afterBuild2,
         [CmdKind.typeCheck, CmdKind.npmBuild, CmdKind.npmInstallTypesNode, CmdKind.npmBuild])
  else (false, fs, [])

/-- Backend-config stage `test_backend`: bootstrap `.env` from `.env.example` only when
`.env` is absent and the template exists; always succeeds.  The `shutil.copy` call is
not wrapped in a `try` block and can raise in the source; `test_backend_exc` models
that uncaught failure path, and this definition is its fault-free projection
(`test_backend_exc_noFaults`). -/
def test_backend (fs : FS) : Bool × FS :=
  match fs.envFile, fs.envExample with
  | none, some t => (true, { fs with envFile := some t })
  | _, _ => (true, fs)

/-- Status Reporter `generate_report`: re-probes the tool versions for display,
derives every component status from the file system, writes `build-report.txt`, and
returns whether `frontend/dist` exists.  The `open("build-report.txt", "w")` call is
not wrapped in a `try` block and can raise in the source; `generate_report_exc`
models that uncaught failure path, and this definition is its fault-free projection
(`generate_report_exc_noFaults`). -/
def generate_report (env : Env) (fs : FS) : Bool × FS × List CmdKind :=
  let nodeShown : String :=
    match run_command env.reportNodeCmd with
    | some r => if r.returncode = 0 then pyStrip r.stdout else "Unknown"
    | none => "Unknown"
  let npmShown : String :=
    match run_command env.reportNpmCmd with
    | some r => if r.returncode = 0 then pyStrip r.stdout else "Unknown"
    | none => "Unknown"
  let rd : ReportData :=
    { nodeVersionShown := nodeShown
      npmVersionShown := npmShown
      backendDeps := fs.nodeModules
      frontendDeps := fs.frontendNodeModules
      frontendBuilt := fs.dist.isSome
      publicDeployed := fs.publicDir.isSome
      envPresent := fs.envFile.isSome
      ready := fs.dist.isSome }
  (fs.dist.isSome, { fs with reportFile := some rd },
   [CmdKind.nodeVersion, CmdKind.npmVersion])

/-- Command-line flags of the script. -/
structure Args where
  skip_install : Bool
  verbose : Bool
  fix_only : Bool

/-- Result of a whole run of `main`: the process exit code (`none` when an uncaught
exception terminates the process instead of `sys.exit`), the final file-system state,
the ordered observable actions, and the aggregated stage-success flag the script
computes (and never consults for its exit code). -/
structure PipeResult where
  exit : Option Nat
  fs : FS
  actions : List Action
  success : Bool

/-- Stage Pipeline Controller `main`: change into the script's directory, probe the
environment (aborting with exit 1 on a false verdict, crashing on an escaped
exception), then run install, config patch, component inventory, build (unless
`--fix-only`), backend config, and the report; the exit code is 0 exactly when the
Reporter's verdict is true. -/
def main (args : Args) (env : Env) (fs0 : FS) : PipeResult :=
  let probe := check_system_requirements env
  match probe.1 with
  | Except.error _ =>
      { exit := none, fs := fs0,
        actions := Action.chdir :: probe.2.map Action.cmd, success := true }
  | Except.ok false =>
      { exit := some 1, fs := fs0,
        actions := Action.chdir :: probe.2.map Action.cmd, success := true }
  | Except.ok true =>
      let inst := install_dependencies args.skip_install env fs0
      let fix := fix_typescript_config fs0
      let comp := fix_react_components fix.2
      let build :=
        if args.fix_only then (true, fix.2, ([] : List CmdKind))
        else build_frontend env fix.2
      let backend := test_backend build.2.1
      let rep := generate_report env backend.2
      { exit := some (if rep.1 then 0 else 1)
        fs := rep.2.1
        actions := Action.chdir :: (probe.2 ++ inst.2 ++ build.2.2 ++ rep.2.2).map Action.cmd
        success := inst.1 && fix.1 && comp && build.1 && backend.1 }

/-- The node version gate fails cleanly (no exception): the probe either did not
complete, completed with nonzero exit, or reported a parseable major version below
16. -/
def nodeBad (env : Env) : Bool :=
  match run_command env.nodeVersionCmd with
  | none => true
  | some r =>
      if r.returncode = 0 then
        match parseMajor r.stdout with
        | some m => decide (m < 16)
        | none => false
      else true

/-- Condition under which the Environment Prober raises: the node version probe
completed with exit 0 but its output's leading token is not an integer. -/
def proberCrashes (env : Env) : Bool :=
  match run_command env.nodeVersionCmd with
  | some r => r.returncode == 0 && (parseMajor r.stdout).isNone
  | none => false

/-- A file-system state in which nothing exists yet. -/
def fsDefault : FS :=
  { frontendDir := false, tsconfig := none, nodeModules := false,
    frontendNodeModules := false, dist := none, publicDir := none,
    envFile := none, envExample := none, reportFile := none }

/-- An environment in which every external command times out and no build output is
produced. -/
def envDefault : Env :=
  { nodeVersionCmd := CmdBehavior.timesOut
    npmVersionCmd := CmdBehavior.timesOut
    backendInstallCmd := CmdBehavior.timesOut
    frontendInstallCmd := CmdBehavior.timesOut
    typeCheckCmd := CmdBehavior.timesOut
    buildCmd1 := CmdBehavior.timesOut
    distAfterBuild1 := none
    typesInstallCmd := CmdBehavior.timesOut
    buildCmd2 := CmdBehavior.timesOut
    distAfterBuild2 := none
    reportNodeCmd := CmdBehavior.timesOut
    reportNpmCmd := CmdBehavior.timesOut }

/-- Default command-line flags (no flag passed). -/
def args0 : Args := ⟨false, false, false⟩

/-- A document whose `compilerOptions` member is not an object. -/
def badDoc : JVal := JVal.obj [("compilerOptions", JVal.b true)]

/-- A file system holding `badDoc` as `frontend/tsconfig.json`. -/
def fsBadTs : FS := { fsDefault with tsconfig := some badDoc }

/-- A well-shaped tsconfig top level with one extra top-level key and one overlapping
compiler option. -/
def entriesW : List (String × JVal) :=
  [("compilerOptions", JVal.obj [("strict", JVal.b true)]),
   ("include", JVal.arr [JVal.s "src"])]

/-- A run in which the first build fails, the remediated retry succeeds and produces a
fresh `frontend/dist`. -/
def envRetryBuild : Env :=
  { envDefault with
    buildCmd1 := CmdBehavior.completes ⟨1, "", ""⟩
    typesInstallCmd := CmdBehavior.completes ⟨0, "", ""⟩
    buildCmd2 := CmdBehavior.completes ⟨0, "", ""⟩
    distAfterBuild2 := some [("index.html", "fresh")] }

/-- A starting file system with a frontend tree and a stale deployment directory. -/
def fsStalePublic : FS :=
  { fsDefault with frontendDir := true, publicDir := some [("stale.txt", "old")] }

/-- A run in which the first build exits 0 but leaves no `frontend/dist` behind. -/
def envBuildNoDist : Env :=
  { envDefault with buildCmd1 := CmdBehavior.completes ⟨0, "", ""⟩, distAfterBuild1 := none }

/-- A starting file system for the phantom-build scenario: frontend tree present,
deployment directory holding an earlier build. -/
def fsOldDeploy : FS :=
  { fsDefault with frontendDir := true, publicDir := some [("old.js", "1")] }

/-- An environment whose node version probe reports an old major version. -/
def envOldNode : Env :=
  { envDefault with nodeVersionCmd := CmdBehavior.completes ⟨0, "v14.21.3", ""⟩ }

/-- An environment whose version probes succeed with modern versions. -/
def envOkProbe : Env :=
  { envDefault with
    nodeVersionCmd := CmdBehavior.completes ⟨0, "v18.17.0", ""⟩
    npmVersionCmd := CmdBehavior.completes ⟨0, "9.6.7", ""⟩ }

/-- An environment whose node version probe exits 0 with unparsable output. -/
def envBadVersionOut : Env :=
  { envDefault with nodeVersionCmd := CmdBehavior.completes ⟨0, "garbage", ""⟩ }

/-- A file system with both a live `.env` and a differing `.env.example`. -/
def fsEnvBoth : FS :=
  { fsDefault with envFile := some "API_KEY=live", envExample := some "API_KEY=" }

/-- Fault oracle for the file-system calls the script performs outside any `try`
block: `shutil.rmtree(public_path)` and `shutil.copytree(dist_path, public_path)` in
`build_frontend`, `shutil.copy(env_example_path, env_path)` in `test_backend`, and
`open("build-report.txt", "w")` in `generate_report`.  `some e` means the call raises
an `OSError` carrying message `e` on this run; `none` means it succeeds. -/
structure FsFaults where
  rmtreePublic : Option String
  copytreePublic : Option String
  copyEnvTemplate : Option String
  openReport : Option String

/-- A run on which every uncaught file-system call succeeds. -/
def noFaults : FsFaults := ⟨none, none, none, none⟩

/-- Exception-aware build stage: identical to `build_frontend` except that the
deployment step's `shutil.rmtree` (reached only when `public` exists) and
`shutil.copytree` calls can raise, in which case the exception escapes the function
(`Except.error`).  No other statement of the stage touches the file system. -/
def build_frontend_exc (flt : FsFaults) (env : Env) (fs : FS) :
    Except String (Bool × FS × List CmdKind) :=
  if fs.frontendDir then
    let afterBuild1 : FS := { fs with dist := env.distAfterBuild1 }
    if cmdOk (run_command env.buildCmd1) then
      match env.distAfterBuild1 with
      | some d =>
          if fs.publicDir.isSome then
            match flt.rmtreePublic with
            | some e => Except.error e
            | none =>
                match flt.copytreePublic with
                | some e => Except.error e
                | none =>
                    Except.ok (true, { afterBuild1 with publicDir := some d },
                      [CmdKind.typeCheck, CmdKind.npmBuild])
          else
            match flt.copytreePublic with
            | some e => Except.error e
            | none =>
                Except.ok (true, { afterBuild1 with publicDir := some d },
                  [CmdKind.typeCheck, CmdKind.npmBuild])
      | none => Except.ok (false, afterBuild1, [CmdKind.typeCheck, CmdKind.npmBuild])
    else
      let afterBuild2 : FS := { afterBuild1 with dist := env.distAfterBuild2 }
      if cmdOk (run_command env.buildCmd2) then
        Except.ok (true, afterBuild2,
          [CmdKind.typeCheck, CmdKind.npmBuild, CmdKind.npmInstallTypesNode, CmdKind.npmBuild])
      else
        Except.ok (false, afterBuild2,
          [CmdKind.typeCheck, CmdKind.npmBuild, CmdKind.npmInstallTypesNode, CmdKind.npmBuild])
  else Except.ok (false, fs, [])

/-- Exception-aware backend-config stage: identical to `test_backend` except that the
bootstrap `shutil.copy` call can raise, in which case the exception escapes. -/
def test_backend_exc (flt : FsFaults) (fs : FS) : Except String (Bool × FS) :=
  match fs.envFile, fs.envExample with
  | none, some t =>
      match flt.copyEnvTemplate with
      | some e => Except.error e
      | none => Except.ok (true, { fs with envFile := some t })
  | _, _ => Except.ok (true, fs)

/-- Exception-aware Status Reporter: identical to `generate_report` except that the
report-file `open(..., "w")` call can raise, in which case the exception escapes. -/
def generate_report_exc (flt : FsFaults) (env : Env) (fs : FS) :
    Except String (Bool × FS × List CmdKind) :=
  match flt.openReport with
  | some e => Except.error e
  | none => Except.ok (generate_report env fs)

/-- A run on which removing the old `public` tree raises. -/
def fltRmtreeFail : FsFaults := { noFaults with rmtreePublic := some "Access is denied" }

/-- A run on which copying the environment template raises. -/
def fltCopyFail : FsFaults := { noFaults with copyEnvTemplate := some "Permission denied" }

/-- A run on which opening the report file for writing raises. -/
def fltOpenFail : FsFaults := { noFaults with openReport := some "No space left on device" }

/-- An environment whose first build exits 0 and produces a fresh `frontend/dist`. -/
def envBuildOkDist : Env :=
  { envDefault with
    buildCmd1 := CmdBehavior.completes ⟨0, "", ""⟩
    distAfterBuild1 := some [("index.html", "new")] }

/-- A file system with a frontend tree and an existing deployment directory. -/
def fsDeployedOld : FS :=
  { fsDefault with frontendDir := true, publicDir := some [("old.html", "v1")] }

/-- A file system with only the environment template present. -/
def fsEnvTemplateOnly : FS := { fsDefault with envExample := some "API_KEY=" }

/-! ## Association-list and patcher lemmas -/

theorem lookupKey_setKey (l : List (String × JVal)) (k k' : String) (v : JVal) :
    lookupKey (setKey l k v) k' = if k' = k then some v else lookupKey l k' := by
  induction l with
  | nil =>
      by_cases h : k' = k
      · subst h; simp [setKey, lookupKey]
      · have h2 : ¬ k = k' := fun hh => h hh.symm
        simp [setKey, lookupKey, h, h2]
  | cons hd tl ih =>
      obtain ⟨k0, v0⟩ := hd
      by_cases h0 : k0 = k
      · subst h0
        simp only [setKey, if_pos rfl, lookupKey]
        by_cases h1 : k0 = k'
        · subst h1; simp
        · have h1' : ¬ k' = k0 := fun hh => h1 hh.symm
          simp [h1, h1']
      · simp only [setKey, if_neg h0, lookupKey]
        by_cases h1 : k0 = k'
        · have h2 : ¬ k' = k := fun hh => h0 (h1.trans hh)
          simp [h1, h2]
        · simp [h1, ih]

theorem setKey_of_lookup {l : List (String × JVal)} {k : String} {v : JVal}
    (h : lookupKey l k = some v) : setKey l k v = l := by
  induction l with
  | nil => simp [lookupKey] at h
  | cons hd tl ih =>
      obtain ⟨k0, v0⟩ := hd
      by_cases h0 : k0 = k
      · simp [lookupKey, h0] at h
        simp [setKey, h0, h]
      · simp [lookupKey, h0] at h
        simp [setKey, h0, ih h]

theorem setKey_setKey (l : List (String × JVal)) (k : String) (v w : JVal) :
    setKey (setKey l k v) k w = setKey l k w := by
  induction l with
  | nil => simp [setKey]
  | cons hd tl ih =>
      obtain ⟨k0, v0⟩ := hd
      by_cases h0 : k0 = k
      · simp [setKey, h0]
      · simp [setKey, h0, ih]

theorem lookupKey_updateAll_mem (k : String) (v : JVal) (hm : (k, v) ∈ overrides)
    (l : List (String × JVal)) : lookupKey (updateAll l) k = some v := by
  simp only [overrides, List.mem_cons, List.not_mem_nil, or_false, Prod.mk.injEq] at hm
  rcases hm with hkv | hkv | hkv | hkv | hkv | hkv | hkv | hkv <;>
    obtain ⟨rfl, rfl⟩ := hkv <;>
    simp +decide [updateAll, overrides, List.foldl, lookupKey_setKey]

theorem lookupKey_updateAll_notmem (k : String) (hk : k ∉ overrideKeys)
    (l : List (String × JVal)) : lookupKey (updateAll l) k = lookupKey l k := by
  simp only [overrideKeys, List.mem_cons, List.not_mem_nil, or_false, not_or] at hk
  obtain ⟨h1, h2, h3, h4, h5, h6, h7, h8⟩ := hk
  simp [updateAll, overrides, List.foldl, lookupKey_setKey, h1, h2, h3, h4, h5, h6, h7, h8]

theorem updateAll_idem (l : List (String × JVal)) : updateAll (updateAll l) = updateAll l := by
  conv_lhs => rw [updateAll, overrides]
  simp only [List.foldl]
  rw [setKey_of_lookup (lookupKey_updateAll_mem "jsx" _ (by simp [overrides]) l)]
  rw [setKey_of_lookup (lookupKey_updateAll_mem "moduleResolution" _ (by simp [overrides]) l)]
  rw [setKey_of_lookup
    (lookupKey_updateAll_mem "allowSyntheticDefaultImports" _ (by simp [overrides]) l)]
  rw [setKey_of_lookup (lookupKey_updateAll_mem "esModuleInterop" _ (by simp [overrides]) l)]
  rw [setKey_of_lookup (lookupKey_updateAll_mem "skipLibCheck" _ (by simp [overrides]) l)]
  rw [setKey_of_lookup (lookupKey_updateAll_mem "strict" _ (by simp [overrides]) l)]
  rw [setKey_of_lookup (lookupKey_updateAll_mem "noImplicitAny" _ (by simp [overrides]) l)]
  rw [setKey_of_lookup (lookupKey_updateAll_mem "strictNullChecks" _ (by simp [overrides]) l)]

theorem patchDoc_idem {d d' : JVal} (h : patchDoc d = some d') : patchDoc d' = some d' := by
  cases d with
  | obj entries =>
      cases hco : lookupKey entries "compilerOptions" with
      | none =>
          simp only [patchDoc, hco, Option.some.injEq] at h
          subst h
          simp [patchDoc, lookupKey_setKey, updateAll_idem, setKey_setKey]
      | some w =>
          cases w with
          | obj co =>
              simp only [patchDoc, hco, Option.some.injEq] at h
              subst h
              simp [patchDoc, lookupKey_setKey, updateAll_idem, setKey_setKey]
          | null => simp [patchDoc, hco] at h
          | b x => simp [patchDoc, hco] at h
          | n x => simp [patchDoc, hco] at h
          | s x => simp [patchDoc, hco] at h
          | arr x => simp [patchDoc, hco] at h
  | null => simp [patchDoc] at h
  | b x => simp [patchDoc] at h
  | n x => simp [patchDoc] at h
  | s x => simp [patchDoc] at h
  | arr x => simp [patchDoc] at h

/-! ## Reporter and pipeline lemmas -/

theorem generate_report_fst (env : Env) (fs : FS) :
    (generate_report env fs).1 = fs.dist.isSome := by
  simp [generate_report]

theorem generate_report_fs_dist (env : Env) (fs : FS) :
    (generate_report env fs).2.1.dist = fs.dist := by
  simp [generate_report]

theorem generate_report_fs_report (env : Env) (fs : FS) :
    (generate_report env fs).2.1.reportFile.map (fun rd => rd.ready) = some fs.dist.isSome := by
  simp [generate_report]

theorem csr_nodeBad {env : Env} (h : nodeBad env = true) :
    check_system_requirements env = (Except.ok false, [CmdKind.nodeVersion]) := by
  unfold nodeBad at h
  cases hn : run_command env.nodeVersionCmd with
  | none => simp [check_system_requirements, hn]
  | some r =>
      simp only [hn] at h
      by_cases hrc : r.returncode = 0
      · rw [if_pos hrc] at h
        cases hm : parseMajor r.stdout with
        | none => simp [hm] at h
        | some m =>
            simp only [hm] at h
            have hm16 : m < 16 := of_decide_eq_true h
            have hnot : ¬ (16 ≤ m) := not_le.mpr hm16
            simp [check_system_requirements, hn, hrc, hm, hnot]
      · simp [check_system_requirements, hn, hrc]

theorem csr_error_iff (env : Env) :
    (check_system_requirements env).1 = Except.error () ↔ proberCrashes env = true := by
  cases hn : run_command env.nodeVersionCmd with
  | none => simp [check_system_requirements, proberCrashes, hn]
  | some r =>
      by_cases hrc : r.returncode = 0
      · cases hm : parseMajor r.stdout with
        | none => simp [check_system_requirements, proberCrashes, hn, hrc, hm]
        | some m =>
            by_cases h16 : 16 ≤ m
            · cases hnpm : run_command env.npmVersionCmd with
              | none => simp [check_system_requirements, proberCrashes, hn, hrc, hm, h16, hnpm]
              | some r2 =>
                  by_cases hrc2 : r2.returncode = 0 <;>
                    simp [check_system_requirements, proberCrashes, hn, hrc, hm, h16, hnpm, hrc2]
            · simp [check_system_requirements, proberCrashes, hn, hrc, hm, h16]
      · simp [check_system_requirements, proberCrashes, hn, hrc]

theorem build_frontend_exc_noFaults (env : Env) (fs : FS) :
    build_frontend_exc noFaults env fs = Except.ok (build_frontend env fs) := by
  by_cases hf : fs.frontendDir = true
  · by_cases h1 : cmdOk (run_command env.buildCmd1) = true
    · cases hd : env.distAfterBuild1 with
      | none => simp [build_frontend_exc, build_frontend, noFaults, hf, h1, hd]
      | some d =>
          by_cases hp : fs.publicDir.isSome = true <;>
            simp [build_frontend_exc, build_frontend, noFaults, hf, h1, hd, hp]
    · by_cases h2 : cmdOk (run_command env.buildCmd2) = true <;>
        simp [build_frontend_exc, build_frontend, noFaults, hf, h1, h2]
  · simp [build_frontend_exc, build_frontend, noFaults, hf]

theorem test_backend_exc_noFaults (fs : FS) :
    test_backend_exc noFaults fs = Except.ok (test_backend fs) := by
  cases he : fs.envFile <;> cases hx : fs.envExample <;>
    simp [test_backend_exc, test_backend, noFaults, he, hx]

theorem generate_report_exc_noFaults (env : Env) (fs : FS) :
    generate_report_exc noFaults env fs = Except.ok (generate_report env fs) := by
  simp [generate_report_exc, noFaults]

theorem patchCO_eq (entries co : List (String × JVal))
    (hco : lookupKey entries "compilerOptions" = some (JVal.obj co)) (k : String) :
    patchCO (JVal.obj entries) k = lookupKey (updateAll co) k := by
  simp [patchCO, patchTop, patchDoc, hco, lookupKey_setKey]

theorem patchCO_eq_none (entries : List (String × JVal))
    (hco : lookupKey entries "compilerOptions" = none) (k : String) :
    patchCO (JVal.obj entries) k = lookupKey (updateAll []) k := by
  simp [patchCO, patchTop, patchDoc, hco, lookupKey_setKey]

theorem map_cmd_all_not_chdir (l : List CmdKind) :
    ((l.map Action.cmd).all fun a => !(isChdir a)) = true := by
  induction l with
  | nil => rfl
  | cons c cs ih => simp [isChdir, ih]

/-! ## Claim theorems -/

/-- C1, counterexample: a concrete run in which the first build fails and the
remediated retry succeeds, yet the deployment directory `public/` still holds its
stale pre-run content instead of the fresh `frontend/dist` content: the retry-success
path returns success without performing the deployment copy. -/
theorem build_retry_leaves_stale_public :
    (build_frontend envRetryBuild fsStalePublic).1 = true ∧
    (build_frontend envRetryBuild fsStalePublic).2.1.dist = some [("index.html", "fresh")] ∧
    (build_frontend envRetryBuild fsStalePublic).2.1.publicDir = some [("stale.txt", "old")] ∧
    (build_frontend envRetryBuild fsStalePublic).2.1.publicDir ≠
      (build_frontend envRetryBuild fsStalePublic).2.1.dist := by
  refine ⟨rfl, rfl, rfl, ?_⟩
  decide

/-- C1 (amended): in every run in which the first build invocation fails and the
remediated retry (after installing the one named auxiliary dependency) succeeds, the
build stage reports success but the deployment directory `public/` is left exactly as
it was before the stage — the deployment replacement happens only when the first build
attempt itself succeeds. -/
theorem build_retry_public_unchanged (env : Env) (fs : FS)
    (hf : fs.frontendDir = true)
    (h1 : cmdOk (run_command env.buildCmd1) = false)
    (h2 : cmdOk (run_command env.buildCmd2) = true) :
    (build_frontend env fs).1 = true ∧
    (build_frontend env fs).2.1.publicDir = fs.publicDir ∧
    (build_frontend env fs).2.1.dist = env.distAfterBuild2 := by
  simp [build_frontend, hf, h1, h2]

/-- C1, witness: the amended statement evaluated on the concrete failing-then-fixed
run. -/
theorem build_retry_public_unchanged_witness :
    (build_frontend envRetryBuild fsStalePublic).1 = true ∧
    (build_frontend envRetryBuild fsStalePublic).2.1.publicDir = fsStalePublic.publicDir ∧
    (build_frontend envRetryBuild fsStalePublic).2.1.dist = envRetryBuild.distAfterBuild2 :=
  build_retry_public_unchanged envRetryBuild fsStalePublic rfl rfl rfl

/-- C2: in every run whose environment probe returns a true verdict (so the run
reaches the report stage), the process exit code is 0 exactly when `frontend/dist`
exists at report time and 1 exactly when it is absent, and the Reporter's recorded
verdict equals that same existence bit — independently of all earlier stage flags,
which are universally quantified away here. -/
theorem exit_iff_dist_present (args : Args) (env : Env) (fs0 : FS)
    (h : (check_system_requirements env).1 = Except.ok true) :
    ((main args env fs0).exit = some 0 ↔ (main args env fs0).fs.dist.isSome = true) ∧
    ((main args env fs0).exit = some 1 ↔ (main args env fs0).fs.dist = none) ∧
    ((main args env fs0).fs.reportFile.map (fun rd => rd.ready)) =
      some ((main args env fs0).fs.dist.isSome) := by
  have hA : (main args env fs0).exit
      = some (if (main args env fs0).fs.dist.isSome then 0 else 1) := by
    simp only [main, h]
    simp [generate_report_fst, generate_report_fs_dist]
  have hB : ((main args env fs0).fs.reportFile.map (fun rd => rd.ready))
      = some ((main args env fs0).fs.dist.isSome) := by
    simp only [main, h]
    simp [generate_report_fs_report, generate_report_fs_dist]
  refine ⟨?_, ?_, hB⟩
  · rw [hA]
    cases hd : (main args env fs0).fs.dist <;> simp [hd]
  · rw [hA]
    cases hd : (main args env fs0).fs.dist <;> simp [hd]

/-- C2, witness: a run with a passing probe, no frontend tree and hence no
`frontend/dist`, exiting 1 with a false recorded verdict. -/
theorem exit_iff_dist_present_witness :
    ((main args0 envOkProbe fsDefault).exit = some 0 ↔
      (main args0 envOkProbe fsDefault).fs.dist.isSome = true) ∧
    ((main args0 envOkProbe fsDefault).exit = some 1 ↔
      (main args0 envOkProbe fsDefault).fs.dist = none) ∧
    ((main args0 envOkProbe fsDefault).fs.reportFile.map (fun rd => rd.ready)) =
      some ((main args0 envOkProbe fsDefault).fs.dist.isSome) :=
  exit_iff_dist_present args0 envOkProbe fsDefault rfl

/-- C3, counterexample: the document `{"compilerOptions": true}` exists and parses,
yet the patch operation produces no patched document at all — `compiler_options.update`
raises, the stage reports failure, the file is left unchanged, and no override key
(e.g. `jsx`) is present afterwards. -/
theorem patch_fails_on_nonobject_compilerOptions :
    patchDoc badDoc = none ∧
    fix_typescript_config fsBadTs = (false, fsBadTs) ∧
    patchCO badDoc "jsx" = none :=
  ⟨rfl, rfl, rfl⟩

/-- C3 (amended): for every parsed configuration document whose top level is an object
and whose `compilerOptions` member, when present, is itself an object, the patch
produces a document in which every override key maps to its fixed value inside
`compilerOptions`, every `compilerOptions` key outside the override set keeps its
original value, and every top-level key other than `compilerOptions` keeps its
original value; in particular the spec's scenario input yields exactly its scenario
output. -/
theorem patch_overrides_and_preserves :
    (∀ entries, coShapeOk entries = true →
      (∀ k v, (k, v) ∈ overrides → patchCO (JVal.obj entries) k = some v) ∧
      (∀ k, k ∉ overrideKeys → patchCO (JVal.obj entries) k = origCO entries k) ∧
      (∀ k, ¬ k = "compilerOptions" → patchTop (JVal.obj entries) k = lookupKey entries k)) ∧
    patchDoc (JVal.obj [("compilerOptions", JVal.obj [("strict", JVal.b true)])]) =
      some (JVal.obj [("compilerOptions", JVal.obj
        [("strict", JVal.b false), ("jsx", JVal.s "react-jsx"),
         ("moduleResolution", JVal.s "node"),
         ("allowSyntheticDefaultImports", JVal.b true), ("esModuleInterop", JVal.b true),
         ("skipLibCheck", JVal.b true), ("noImplicitAny", JVal.b false),
         ("strictNullChecks", JVal.b false)])]) := by
  constructor
  · intro entries hsh
    cases hco : lookupKey entries "compilerOptions" with
    | none =>
        refine ⟨?_, ?_, ?_⟩
        · intro k v hm
          rw [patchCO_eq_none entries hco k]
          exact lookupKey_updateAll_mem k v hm []
        · intro k hk
          rw [patchCO_eq_none entries hco k, lookupKey_updateAll_notmem k hk]
          simp [origCO, hco, lookupKey]
        · intro k hk
          simp only [patchTop, patchDoc, hco, lookupKey_setKey]
          simp [hk]
    | some w =>
        cases w with
        | obj co =>
            refine ⟨?_, ?_, ?_⟩
            · intro k v hm
              rw [patchCO_eq entries co hco k]
              exact lookupKey_updateAll_mem k v hm co
            · intro k hk
              rw [patchCO_eq entries co hco k, lookupKey_updateAll_notmem k hk]
              simp [origCO, hco]
            · intro k hk
              simp only [patchTop, patchDoc, hco, lookupKey_setKey]
              simp [hk]
        | null => simp [coShapeOk, hco] at hsh
        | b x => simp [coShapeOk, hco] at hsh
        | n x => simp [coShapeOk, hco] at hsh
        | s x => simp [coShapeOk, hco] at hsh
        | arr x => simp [coShapeOk, hco] at hsh
  · rfl

/-- C3, witness: the amended statement evaluated on a concrete well-shaped document —
the `jsx` override is set inside `compilerOptions` and the unrelated top-level
`include` key is preserved. -/
theorem patch_overrides_and_preserves_witness :
    patchCO (JVal.obj entriesW) "jsx" = some (JVal.s "react-jsx") ∧
    patchTop (JVal.obj entriesW) "include" = lookupKey entriesW "include" :=
  ⟨(patch_overrides_and_preserves.1 entriesW rfl).1 "jsx" (JVal.s "react-jsx")
      (by simp [overrides]),
   (patch_overrides_and_preserves.1 entriesW rfl).2.2 "include" (by decide)⟩

/-- C4: the Configuration Patcher stage is idempotent — running it a second time on
the file system produced by the first run yields the same result and the same
persisted file content (this covers the missing-file, malformed-document, and
successful-patch cases uniformly). -/
theorem patch_idempotent (fs : FS) :
    fix_typescript_config (fix_typescript_config fs).2 = fix_typescript_config fs := by
  cases h : fs.tsconfig with
  | none => simp [fix_typescript_config, h]
  | some d =>
      cases hp : patchDoc d with
      | none => simp [fix_typescript_config, h, hp]
      | some d2 => simp [fix_typescript_config, h, hp, patchDoc_idem hp]

/-- C5: whenever the node probe fails cleanly — the tool is absent, exits nonzero, or
reports a major version below 16 — the pipeline exits with code 1 and its complete
action trace is the directory change followed by the single `node --version` probe: no
install or build command is ever launched. -/
theorem old_node_aborts_before_install (args : Args) (env : Env) (fs0 : FS)
    (h : nodeBad env = true) :
    (main args env fs0).exit = some 1 ∧
    (main args env fs0).actions = [Action.chdir, Action.cmd CmdKind.nodeVersion] ∧
    ((main args env fs0).actions.all fun a => !(isInstallOrBuild a)) = true := by
  have hc := csr_nodeBad h
  refine ⟨?_, ?_, ?_⟩ <;> simp [main, hc, isInstallOrBuild]

/-- C5, witness: the statement evaluated on a concrete environment reporting node
v14.21.3. -/
theorem old_node_aborts_before_install_witness :
    (main args0 envOldNode fsDefault).exit = some 1 ∧
    (main args0 envOldNode fsDefault).actions = [Action.chdir, Action.cmd CmdKind.nodeVersion] ∧
    ((main args0 envOldNode fsDefault).actions.all fun a => !(isInstallOrBuild a)) = true :=
  old_node_aborts_before_install args0 envOldNode fsDefault rfl

/-- C6, counterexample: the Environment Prober lets an exception escape — when
`node --version` exits 0 with output whose leading token is not an integer, the
`int(...)` call raises `ValueError` uncaught, and the whole process dies with a
traceback instead of a `sys.exit` code. -/
theorem prober_raises_on_unparsable_version :
    (check_system_requirements envBadVersionOut).1 = Except.error () ∧
    (main args0 envBadVersionOut fsDefault).exit = none :=
  ⟨rfl, rfl⟩

/-- C6 (amended): the propagation policy fails in four components.  The Environment
Prober lets an uncaught `ValueError` escape exactly when the node version probe
completes with exit 0 but unparsable output, and that exception escapes `main` itself,
killing the process without a `sys.exit` code.  Moreover the build stage's deployment
step (`shutil.rmtree` of an existing `public`, reached after a first-attempt build
success with `frontend/dist` present), the backend-config stage's bootstrap
(`shutil.copy`, reached when `.env` is absent and the template exists), and the
Status Reporter's report-file write all sit outside any `try` block, so a file-system
error in any of them escapes that component's boundary instead of being returned as a
result. -/
theorem component_exception_escapes :
    (∀ env : Env,
      (check_system_requirements env).1 = Except.error () ↔ proberCrashes env = true) ∧
    (∀ (args : Args) (env : Env) (fs0 : FS), proberCrashes env = true →
      (main args env fs0).exit = none) ∧
    (∀ (flt : FsFaults) (env : Env) (fs : FS) (e : String),
      fs.frontendDir = true → cmdOk (run_command env.buildCmd1) = true →
      env.distAfterBuild1.isSome = true → fs.publicDir.isSome = true →
      flt.rmtreePublic = some e → build_frontend_exc flt env fs = Except.error e) ∧
    (∀ (flt : FsFaults) (fs : FS) (e : String),
      fs.envFile = none → fs.envExample.isSome = true →
      flt.copyEnvTemplate = some e → test_backend_exc flt fs = Except.error e) ∧
    (∀ (flt : FsFaults) (env : Env) (fs : FS) (e : String),
      flt.openReport = some e → generate_report_exc flt env fs = Except.error e) := by
  refine ⟨csr_error_iff, ?_, ?_, ?_, ?_⟩
  · intro args env fs0 h
    have he := (csr_error_iff env).mpr h
    simp [main, he]
  · intro flt env fs e hf h1 hd hp hr
    cases hd1 : env.distAfterBuild1 with
    | none => rw [hd1] at hd; simp at hd
    | some d => simp [build_frontend_exc, hf, h1, hd1, hp, hr]
  · intro flt fs e he hx hc
    cases hx1 : fs.envExample with
    | none => rw [hx1] at hx; simp at hx
    | some t => simp [test_backend_exc, he, hx1, hc]
  · intro flt env fs e ho
    simp [generate_report_exc, ho]

/-- C6, witness: each escaping exception evaluated on a concrete run — the prober's
`ValueError` crashing `main`, a denied `rmtree` escaping the build stage, a denied
template copy escaping the backend-config stage, and a failed report-file write
escaping the Reporter. -/
theorem component_exception_escapes_witness :
    (main args0 envBadVersionOut fsDefault).exit = none ∧
    build_frontend_exc fltRmtreeFail envBuildOkDist fsDeployedOld =
      Except.error "Access is denied" ∧
    test_backend_exc fltCopyFail fsEnvTemplateOnly = Except.error "Permission denied" ∧
    generate_report_exc fltOpenFail envDefault fsDefault =
      Except.error "No space left on device" :=
  ⟨component_exception_escapes.2.1 args0 envBadVersionOut fsDefault rfl,
   component_exception_escapes.2.2.1 fltRmtreeFail envBuildOkDist fsDeployedOld
     "Access is denied" rfl rfl rfl rfl rfl,
   component_exception_escapes.2.2.2.1 fltCopyFail fsEnvTemplateOnly
     "Permission denied" rfl rfl rfl,
   component_exception_escapes.2.2.2.2 fltOpenFail envDefault fsDefault
     "No space left on device" rfl⟩

/-- C7, counterexample: the Command Runner returns the very same value (`None`) for a
timeout and for a launch failure, and that value carries no error text — the three
cases of the claim are not distinguishable from the returned value alone. -/
theorem timeout_and_launch_failure_indistinguishable :
    run_command CmdBehavior.timesOut = run_command (CmdBehavior.raises "no such file") ∧
    run_command CmdBehavior.timesOut = none :=
  ⟨rfl, rfl⟩

/-- C7 (amended): the Command Runner returns the structured outcome on normal
completion (including nonzero exit) and, rather than raising, returns the single
distinguished empty outcome `None` both on timeout and on launch failure; a caller can
therefore tell completion from non-completion, but not timeout from launch failure. -/
theorem run_command_outcomes :
    (∀ p : Proc, run_command (CmdBehavior.completes p) = some p) ∧
    run_command CmdBehavior.timesOut = none ∧
    (∀ e : String, run_command (CmdBehavior.raises e) = none) ∧
    (∀ p : Proc, run_command (CmdBehavior.completes p) ≠ run_command CmdBehavior.timesOut) := by
  refine ⟨fun p => rfl, rfl, fun e => rfl, fun p => ?_⟩
  simp [run_command]

/-- C8: the backend-config stage never touches an existing live `.env` file — when
`.env` exists the stage is the identity on the file system; when it bootstraps, it is
because `.env` was absent and `.env.example` present, and the copied content is
exactly the template's. -/
theorem env_file_preserved :
    (∀ fs : FS, fs.envFile.isSome = true → test_backend fs = (true, fs)) ∧
    (∀ (fs : FS) (t : String), fs.envFile = none → fs.envExample = some t →
      test_backend fs = (true, { fs with envFile := some t })) ∧
    (∀ fs : FS, (test_backend fs).2.envFile ≠ fs.envFile →
      fs.envFile = none ∧ (test_backend fs).2.envFile = fs.envExample) := by
  refine ⟨?_, ?_, ?_⟩
  · intro fs h
    cases he : fs.envFile with
    | none => rw [he] at h; simp at h
    | some v => simp [test_backend, he]
  · intro fs t h1 h2
    simp [test_backend, h1, h2]
  · intro fs h
    cases he : fs.envFile with
    | some v =>
        exfalso
        apply h
        simp [test_backend, he]
    | none =>
        cases hx : fs.envExample with
        | none => simp [test_backend, he, hx] at h
        | some t => exact ⟨rfl, by simp [test_backend, he, hx]⟩

/-- C8, witness: the identity behaviour evaluated on a concrete file system holding a
live `.env` and a differing template. -/
theorem env_file_preserved_witness :
    test_backend fsEnvBoth = (true, fsEnvBoth) :=
  env_file_preserved.1 fsEnvBoth rfl

/-- C9: if the first build invocation exits 0 but `frontend/dist` does not exist
afterwards, the build stage fails without running the remediation commands — its trace
is exactly the type check and the single build — and the pre-existing `public/`
directory is untouched. -/
theorem build_success_without_dist (env : Env) (fs : FS)
    (hf : fs.frontendDir = true)
    (h1 : cmdOk (run_command env.buildCmd1) = true)
    (hd : env.distAfterBuild1 = none) :
    (build_frontend env fs).1 = false ∧
    (build_frontend env fs).2.1.publicDir = fs.publicDir ∧
    (build_frontend env fs).2.2 = [CmdKind.typeCheck, CmdKind.npmBuild] := by
  simp [build_frontend, hf, h1, hd]

/-- C9, witness: the statement evaluated on a concrete phantom-success run. -/
theorem build_success_without_dist_witness :
    (build_frontend envBuildNoDist fsOldDeploy).1 = false ∧
    (build_frontend envBuildNoDist fsOldDeploy).2.1.publicDir = fsOldDeploy.publicDir ∧
    (build_frontend envBuildNoDist fsOldDeploy).2.2 = [CmdKind.typeCheck, CmdKind.npmBuild] :=
  build_success_without_dist envBuildNoDist fsOldDeploy rfl rfl rfl

/-- C10: for every run, whatever the flags, environment and starting file system, the
first observable action is the change of working directory into the script's own
directory, and no further directory change ever happens — every later action resolves
relative paths against that one location. -/
theorem chdir_first (args : Args) (env : Env) (fs0 : FS) :
    (main args env fs0).actions.head? = some Action.chdir ∧
    ((main args env fs0).actions.tail.all fun a => !(isChdir a)) = true := by
  cases hp : (check_system_requirements env).1 with
  | error e => constructor <;> simp [main, hp, map_cmd_all_not_chdir]
  | ok b =>
      cases b with
      | true => constructor <;> simp [main, hp, map_cmd_all_not_chdir]
      | false => constructor <;> simp [main, hp, map_cmd_all_not_chdir]

end AQI
